import Mathlib

/-
  Verification development for the SandboxShooter repository.

  Shallow embedding of the gameplay logic in
    Source/CharacterAttributeModule/WeaponHandling/ (UWeaponHandlingComponent)
    Source/WorldItemsModule/Item/               (AItem)
    Source/WorldItemsModule/Weapon/             (AWeapon)
    Source/LastShooterLS/Character/             (ABelicaCharacter)

  Engine floats are embedded as rationals; engine timers are embedded as
  Option-valued pending delays on the corresponding timer-handle field; the
  int8 field OverlappedItemCount is embedded as an integer reduced to the
  int8 range on every store.
-/

namespace SandboxShooter

/-! ## Armed state (WeaponHandlingComponent.h, WeaponHandlingComponent.cpp) -/

/-- EPlayerArmedState from WeaponHandlingComponent.h (lines 17-25). -/
inductive EPlayerArmedState where
  | EPAS_Unarmed
  | EPAS_Pistol
  | EPAS_Rifle
  | EPAS_Shotgun
  | EPAS_MAX
deriving DecidableEq

/-- The four armed-state boolean fields of UWeaponHandlingComponent
(WeaponHandlingComponent.h lines 256-268). -/
structure ArmedFlags where
  bIsArmed : Bool
  bIsArmedPistol : Bool
  bIsArmedRifle : Bool
  bIsArmedShotGun : Bool
deriving DecidableEq

/-- Constructor values of the armed-state booleans
(WeaponHandlingComponent.cpp line 29): all four start false. -/
def armedFlagsInit : ArmedFlags :=
  { bIsArmed := false, bIsArmedPistol := false,
    bIsArmedRifle := false, bIsArmedShotGun := false }

/-- UWeaponHandlingComponent::SetPlayerArmedState
(WeaponHandlingComponent.cpp lines 369-400): a switch on the new state;
the default case leaves every field unchanged. -/
def setPlayerArmedState (s : ArmedFlags) : EPlayerArmedState → ArmedFlags
  | .EPAS_Unarmed =>
    { s with bIsArmed := false, bIsArmedPistol := false,
             bIsArmedRifle := false, bIsArmedShotGun := false }
  | .EPAS_Pistol =>
    { s with bIsArmed := true, bIsArmedPistol := true,
             bIsArmedRifle := false, bIsArmedShotGun := false }
  | .EPAS_Rifle =>
    { s with bIsArmed := true, bIsArmedPistol := false,
             bIsArmedRifle := true, bIsArmedShotGun := false }
  | .EPAS_Shotgun =>
    { s with bIsArmed := true, bIsArmedPistol := false,
             bIsArmedRifle := false, bIsArmedShotGun := true }
  | .EPAS_MAX => s

/-- States of the armed-flag fields reachable from the constructor values by
any sequence of SetPlayerArmedState calls (the only writer of these fields). -/
inductive ReachableArmed : ArmedFlags → Prop where
  | init : ReachableArmed armedFlagsInit
  | step (s : ArmedFlags) (ns : EPlayerArmedState) :
      ReachableArmed s → ReachableArmed (setPlayerArmedState s ns)

/-- How many of the four armed-state booleans are set. -/
def armedCount (s : ArmedFlags) : Nat :=
  (if s.bIsArmed then 1 else 0) + (if s.bIsArmedPistol then 1 else 0) +
  (if s.bIsArmedRifle then 1 else 0) + (if s.bIsArmedShotGun then 1 else 0)

/-- Claim C1 counterexample: the state reached from the constructor values by
the single call SetPlayerArmedState(EPAS_Pistol) is reachable, yet has two of
the four armed-state booleans true (bIsArmed and bIsArmedPistol), so it is
neither an all-false state nor a state with exactly one boolean true. -/
theorem armedState_pistol_two_flags_set :
    ReachableArmed (setPlayerArmedState armedFlagsInit .EPAS_Pistol) ∧
    ¬ (armedCount (setPlayerArmedState armedFlagsInit .EPAS_Pistol) = 1 ∨
       armedCount (setPlayerArmedState armedFlagsInit .EPAS_Pistol) = 0) :=
  ⟨ReachableArmed.step armedFlagsInit .EPAS_Pistol ReachableArmed.init, by decide⟩

/-- Claim C1 (amended): in every reachable state of the armed-state booleans,
either all four are false (unarmed), or bIsArmed is true together with exactly
one of the three weapon-specific booleans (pistol, rifle, shotgun). -/
theorem armedState_invariant (s : ArmedFlags) (h : ReachableArmed s) :
    (s.bIsArmed = false ∧ s.bIsArmedPistol = false ∧
     s.bIsArmedRifle = false ∧ s.bIsArmedShotGun = false) ∨
    (s.bIsArmed = true ∧
     ((s.bIsArmedPistol = true ∧ s.bIsArmedRifle = false ∧ s.bIsArmedShotGun = false) ∨
      (s.bIsArmedPistol = false ∧ s.bIsArmedRifle = true ∧ s.bIsArmedShotGun = false) ∨
      (s.bIsArmedPistol = false ∧ s.bIsArmedRifle = false ∧ s.bIsArmedShotGun = true))) := by
  induction h with
  | init => left; exact ⟨rfl, rfl, rfl, rfl⟩
  | step t ns _ ih =>
    cases ns with
    | EPAS_Unarmed => left; exact ⟨rfl, rfl, rfl, rfl⟩
    | EPAS_Pistol => right; exact ⟨rfl, Or.inl ⟨rfl, rfl, rfl⟩⟩
    | EPAS_Rifle => right; exact ⟨rfl, Or.inr (Or.inl ⟨rfl, rfl, rfl⟩)⟩
    | EPAS_Shotgun => right; exact ⟨rfl, Or.inr (Or.inr ⟨rfl, rfl, rfl⟩)⟩
    | EPAS_MAX => exact ih

/-- Witness for the amended claim C1 at the concrete reachable state obtained
by one SetPlayerArmedState(EPAS_Rifle) call. -/
theorem armedState_invariant_witness :
    ((setPlayerArmedState armedFlagsInit .EPAS_Rifle).bIsArmed = false ∧
     (setPlayerArmedState armedFlagsInit .EPAS_Rifle).bIsArmedPistol = false ∧
     (setPlayerArmedState armedFlagsInit .EPAS_Rifle).bIsArmedRifle = false ∧
     (setPlayerArmedState armedFlagsInit .EPAS_Rifle).bIsArmedShotGun = false) ∨
    ((setPlayerArmedState armedFlagsInit .EPAS_Rifle).bIsArmed = true ∧
     (((setPlayerArmedState armedFlagsInit .EPAS_Rifle).bIsArmedPistol = true ∧
       (setPlayerArmedState armedFlagsInit .EPAS_Rifle).bIsArmedRifle = false ∧
       (setPlayerArmedState armedFlagsInit .EPAS_Rifle).bIsArmedShotGun = false) ∨
      ((setPlayerArmedState armedFlagsInit .EPAS_Rifle).bIsArmedPistol = false ∧
       (setPlayerArmedState armedFlagsInit .EPAS_Rifle).bIsArmedRifle = true ∧
       (setPlayerArmedState armedFlagsInit .EPAS_Rifle).bIsArmedShotGun = false) ∨
      ((setPlayerArmedState armedFlagsInit .EPAS_Rifle).bIsArmedPistol = false ∧
       (setPlayerArmedState armedFlagsInit .EPAS_Rifle).bIsArmedRifle = false ∧
       (setPlayerArmedState armedFlagsInit .EPAS_Rifle).bIsArmedShotGun = true))) :=
  armedState_invariant (setPlayerArmedState armedFlagsInit .EPAS_Rifle)
    (ReachableArmed.step armedFlagsInit .EPAS_Rifle ReachableArmed.init)

/-! ## Weapon fire control (WeaponHandlingComponent.cpp lines 200-300) -/

/-- The mutable fields of UWeaponHandlingComponent used by the fire-control
and crosshair logic (WeaponHandlingComponent.h lines 194-268).  An engine
timer handle is embedded as an Option-valued pending delay in seconds; the
callback of each handle is fixed in the code, so it is not stored. -/
structure WHState where
  bIsAiming : Bool
  acceleratingCrosshairMultiplier : ℚ
  inAirCrosshairMultiplier : ℚ
  weaponFireWeaponCrosshairMultiplier : ℚ
  aimingCrosshairMultiplier : ℚ
  bIsFiringWeapon : Bool
  /-- Pending delay on DynamicCrosshairWeaponFireTimer (callback ResetWeaponFireState). -/
  dynamicCrosshairWeaponFireTimer : Option ℚ
  /-- Pending delay on WeaponFireTimer (callback AutoFireTimerReset). -/
  weaponFireTimer : Option ℚ
  bShouldFireWeapon : Bool
  weaponFireRate : ℚ
  armed : ArmedFlags
deriving DecidableEq

/-- Constructor values of UWeaponHandlingComponent
(WeaponHandlingComponent.cpp lines 20-33). -/
def whInit : WHState :=
  { bIsAiming := false,
    acceleratingCrosshairMultiplier := 0,
    inAirCrosshairMultiplier := 0,
    weaponFireWeaponCrosshairMultiplier := 0,
    aimingCrosshairMultiplier := 0,
    bIsFiringWeapon := false,
    dynamicCrosshairWeaponFireTimer := none,
    weaponFireTimer := none,
    bShouldFireWeapon := true,
    weaponFireRate := 0.05,
    armed := armedFlagsInit }

/-- UWeaponHandlingComponent::SetWeaponFireState
(WeaponHandlingComponent.cpp lines 205-211): sets bIsFiringWeapon and starts
a 0.05-second timer on DynamicCrosshairWeaponFireTimer whose callback is
ResetWeaponFireState. -/
def setWeaponFireState (s : WHState) : WHState :=
  { s with bIsFiringWeapon := true, dynamicCrosshairWeaponFireTimer := some 0.05 }

/-- UWeaponHandlingComponent::ResetWeaponFireState
(WeaponHandlingComponent.cpp lines 218-221). -/
def resetWeaponFireState (s : WHState) : WHState :=
  { s with bIsFiringWeapon := false }

/-- UWeaponHandlingComponent::AutoFireTimerReset
(WeaponHandlingComponent.cpp line 239). -/
def autoFireTimerReset (s : WHState) : WHState :=
  { s with bShouldFireWeapon := true }

/-- The engine-side side effects ExecuteFireWeapon can emit. -/
inductive FireEffect where
  | playFireSound
  | weaponTrace
  | spawnMuzzleFlash
  | spawnImpactParticle
  | spawnBeamParticle
deriving DecidableEq

/-- Which of the VFX asset pointers of the component are non-null, and whether
the engine reports a blocking hit for the weapon trace
(WeaponHandlingComponent.h lines 173-188, ExecuteFireWeapon body). -/
structure VFXConfig where
  hasFireSound : Bool
  hasMuzzleFlash : Bool
  hasImpactParticle : Bool
  hasBeamParticle : Bool
  traceBlockingHit : Bool
deriving DecidableEq

/-- The effect list emitted by the body of the bShouldFireWeapon branch of
ExecuteFireWeapon (WeaponHandlingComponent.cpp lines 270-295). -/
def fireEffects (cfg : VFXConfig) : List FireEffect :=
  (if cfg.hasFireSound then [FireEffect.playFireSound] else []) ++
  [FireEffect.weaponTrace] ++
  (if cfg.hasMuzzleFlash then [FireEffect.spawnMuzzleFlash] else []) ++
  (if cfg.hasImpactParticle && cfg.traceBlockingHit then [FireEffect.spawnImpactParticle] else []) ++
  (if cfg.hasBeamParticle then [FireEffect.spawnBeamParticle] else [])

/-- UWeaponHandlingComponent::ExecuteFireWeapon
(WeaponHandlingComponent.cpp lines 268-300): the whole body is guarded by
bShouldFireWeapon; when the guard holds it emits the firing effects and ends
by calling SetWeaponFireState. -/
def executeFireWeapon (cfg : VFXConfig) (s : WHState) : WHState × List FireEffect :=
  if s.bShouldFireWeapon then (setWeaponFireState s, fireEffects cfg)
  else (s, [])

/-- UWeaponHandlingComponent::FireWeapon
(WeaponHandlingComponent.cpp lines 250-257): calls ExecuteFireWeapon, then
clears bShouldFireWeapon and starts a WeaponFireRate-second timer on
WeaponFireTimer whose callback is AutoFireTimerReset. -/
def fireWeapon (cfg : VFXConfig) (s : WHState) : WHState × List FireEffect :=
  let r := executeFireWeapon cfg s
  ({ r.1 with bShouldFireWeapon := false, weaponFireTimer := some r.1.weaponFireRate }, r.2)

/-- Claim C2: firing is gated on bShouldFireWeapon.  When the flag is false,
ExecuteFireWeapon is a no-op (no state change, no effects).  Every FireWeapon
call clears bShouldFireWeapon and schedules AutoFireTimerReset after
WeaponFireRate seconds on WeaponFireTimer, and AutoFireTimerReset sets the
flag back to true. -/
theorem fireWeapon_cooldown_gate (cfg : VFXConfig) (s : WHState) :
    (s.bShouldFireWeapon = false → executeFireWeapon cfg s = (s, [])) ∧
    (s.bShouldFireWeapon = true →
      executeFireWeapon cfg s = (setWeaponFireState s, fireEffects cfg)) ∧
    (fireWeapon cfg s).1.bShouldFireWeapon = false ∧
    (fireWeapon cfg s).1.weaponFireTimer = some s.weaponFireRate ∧
    (∀ t : WHState, (autoFireTimerReset t).bShouldFireWeapon = true) := by
  refine ⟨fun h => ?_, fun h => ?_, ?_, ?_, fun t => rfl⟩
  · simp [executeFireWeapon, h]
  · simp [executeFireWeapon, h]
  · simp [fireWeapon]
  · cases hb : s.bShouldFireWeapon <;>
      simp [fireWeapon, executeFireWeapon, setWeaponFireState, hb]

/-- Witness for claim C2 at the constructor state with every VFX pointer null. -/
theorem fireWeapon_cooldown_gate_witness :
    (whInit.bShouldFireWeapon = true →
      executeFireWeapon ⟨false, false, false, false, false⟩ whInit =
        (setWeaponFireState whInit, fireEffects ⟨false, false, false, false, false⟩)) ∧
    (fireWeapon ⟨false, false, false, false, false⟩ whInit).1.bShouldFireWeapon = false :=
  ⟨(fireWeapon_cooldown_gate ⟨false, false, false, false, false⟩ whInit).2.1,
   (fireWeapon_cooldown_gate ⟨false, false, false, false, false⟩ whInit).2.2.1⟩

/-- Claim C7: the muzzle-effects indicator uses its own timer.
SetWeaponFireState sets bIsFiringWeapon and schedules a 0.05-second delay on
DynamicCrosshairWeaponFireTimer, leaving bShouldFireWeapon and the
WeaponFireTimer cooldown untouched; ResetWeaponFireState clears
bIsFiringWeapon and touches nothing else. -/
theorem weaponFireState_independent_timer (s : WHState) :
    (setWeaponFireState s).bIsFiringWeapon = true ∧
    (setWeaponFireState s).dynamicCrosshairWeaponFireTimer = some 0.05 ∧
    (setWeaponFireState s).bShouldFireWeapon = s.bShouldFireWeapon ∧
    (setWeaponFireState s).weaponFireTimer = s.weaponFireTimer ∧
    (resetWeaponFireState s).bIsFiringWeapon = false ∧
    (resetWeaponFireState s).bShouldFireWeapon = s.bShouldFireWeapon ∧
    (resetWeaponFireState s).weaponFireTimer = s.weaponFireTimer ∧
    (resetWeaponFireState s).dynamicCrosshairWeaponFireTimer =
      s.dynamicCrosshairWeaponFireTimer :=
  ⟨rfl, rfl, rfl, rfl, rfl, rfl, rfl, rfl⟩

/-! ## Crosshair spread (WeaponHandlingComponent.cpp lines 178-198) -/

/-- Engine constant SMALL_NUMBER = 1.e-8. -/
def smallNumber : ℚ := 1 / 100000000

/-- FMath::FInterpTo on floats: returns the target when the speed is
non-positive or the remaining squared distance is below SMALL_NUMBER,
otherwise moves Current by Dist * Clamp(DeltaTime * InterpSpeed, 0, 1). -/
def fInterpTo (current target deltaTime interpSpeed : ℚ) : ℚ :=
  if interpSpeed ≤ 0 then target
  else
    let dist := target - current
    if dist * dist < smallNumber then target
    else current + dist * min 1 (max 0 (deltaTime * interpSpeed))

/-- FMath::IsNearlyZero with the default tolerance SMALL_NUMBER. -/
def isNearlyZero (x : ℚ) : Prop := |x| ≤ smallNumber

instance (x : ℚ) : Decidable (isNearlyZero x) := by
  unfold isNearlyZero
  infer_instance

/-- FMath::GetRangePct: the fraction of Value across the range; when the
range is nearly degenerate it returns 1 if Value is at or above the upper
bound, else 0. -/
def getRangePct (lo hi v : ℚ) : ℚ :=
  if isNearlyZero (hi - lo) then (if hi ≤ v then 1 else 0)
  else (v - lo) / (hi - lo)

/-- FMath::GetMappedRangeValueClamped: lerp of the output range at the
clamped range fraction of the input range. -/
def getMappedRangeValueClamped (inLo inHi outLo outHi v : ℚ) : ℚ :=
  outLo + (outHi - outLo) * min 1 (max 0 (getRangePct inLo inHi v))

/-- Result of one DynamicCrosshair call: the updated component state and the
value written through the CrosshairMultiplier out-parameter. -/
structure CrosshairResult where
  state : WHState
  crosshairMultiplier : ℚ
deriving DecidableEq

/-- UWeaponHandlingComponent::DynamicCrosshair
(WeaponHandlingComponent.cpp lines 178-198), with the intermediate
FVector2D range pairs {0, 1} and {0, MaxSpeed} inlined into the
GetMappedRangeValueClamped call. -/
def dynamicCrosshair (s : WHState) (deltaTime playerSpeed maxSpeed : ℚ)
    (bIsInAir : Bool) : CrosshairResult :=
  let accel := getMappedRangeValueClamped 0 maxSpeed 0 1 playerSpeed
  let inAir :=
    if bIsInAir then fInterpTo s.inAirCrosshairMultiplier 3.0 deltaTime 20.0
    else fInterpTo s.inAirCrosshairMultiplier 0.0 deltaTime 5.0
  let aiming :=
    if s.bIsAiming then fInterpTo s.aimingCrosshairMultiplier (-0.5) deltaTime 12
    else fInterpTo s.aimingCrosshairMultiplier 0.0 deltaTime 15
  let firing :=
    if s.bIsFiringWeapon then fInterpTo s.weaponFireWeaponCrosshairMultiplier 0.3 deltaTime 35
    else fInterpTo s.weaponFireWeaponCrosshairMultiplier 0.0 deltaTime 60
  { state :=
      { s with acceleratingCrosshairMultiplier := accel,
               inAirCrosshairMultiplier := inAir,
               aimingCrosshairMultiplier := aiming,
               weaponFireWeaponCrosshairMultiplier := firing },
    crosshairMultiplier := 0.5 + accel + inAir + aiming + firing }

/-- Claim C3: each DynamicCrosshair call updates the four spread multipliers
independently — the speed one to PlayerSpeed linearly mapped and clamped from
[0, MaxSpeed] into [0, 1], the in-air one interpolated toward 3.0 at rate 20
when airborne and toward 0 at rate 5 otherwise, the aiming one toward -0.5 at
rate 12 when aiming and toward 0 at rate 15 otherwise, the firing one toward
0.3 at rate 35 when firing and toward 0 at rate 60 otherwise — and writes out
0.5 plus the sum of the four updated multipliers. -/
theorem dynamicCrosshair_spec (s : WHState) (dt speed maxSpeed : ℚ) (air : Bool)
    (h : smallNumber < maxSpeed) :
    ((dynamicCrosshair s dt speed maxSpeed air).state.acceleratingCrosshairMultiplier =
      min 1 (max 0 (speed / maxSpeed))) ∧
    ((dynamicCrosshair s dt speed maxSpeed air).state.inAirCrosshairMultiplier =
      if air then fInterpTo s.inAirCrosshairMultiplier 3.0 dt 20.0
      else fInterpTo s.inAirCrosshairMultiplier 0.0 dt 5.0) ∧
    ((dynamicCrosshair s dt speed maxSpeed air).state.aimingCrosshairMultiplier =
      if s.bIsAiming then fInterpTo s.aimingCrosshairMultiplier (-0.5) dt 12
      else fInterpTo s.aimingCrosshairMultiplier 0.0 dt 15) ∧
    ((dynamicCrosshair s dt speed maxSpeed air).state.weaponFireWeaponCrosshairMultiplier =
      if s.bIsFiringWeapon then fInterpTo s.weaponFireWeaponCrosshairMultiplier 0.3 dt 35
      else fInterpTo s.weaponFireWeaponCrosshairMultiplier 0.0 dt 60) ∧
    ((dynamicCrosshair s dt speed maxSpeed air).crosshairMultiplier =
      0.5 + (dynamicCrosshair s dt speed maxSpeed air).state.acceleratingCrosshairMultiplier
          + (dynamicCrosshair s dt speed maxSpeed air).state.inAirCrosshairMultiplier
          + (dynamicCrosshair s dt speed maxSpeed air).state.aimingCrosshairMultiplier
          + (dynamicCrosshair s dt speed maxSpeed air).state.weaponFireWeaponCrosshairMultiplier) := by
  have hpos : 0 < maxSpeed := lt_trans (by norm_num [smallNumber]) h
  have h0 : ¬ isNearlyZero (maxSpeed - 0) := by
    unfold isNearlyZero
    rw [sub_zero, abs_of_pos hpos]
    exact not_le.mpr h
  refine ⟨?_, rfl, rfl, rfl, rfl⟩
  show getMappedRangeValueClamped 0 maxSpeed 0 1 speed = min 1 (max 0 (speed / maxSpeed))
  unfold getMappedRangeValueClamped getRangePct
  rw [if_neg h0]
  simp [sub_zero]

/-- Witness for claim C3 at the constructor state, DeltaTime 1/60,
PlayerSpeed 300, MaxSpeed 600, airborne. -/
theorem dynamicCrosshair_spec_witness :
    smallNumber < 600 ∧
    (((dynamicCrosshair whInit (1/60) 300 600 true).state.acceleratingCrosshairMultiplier =
        min 1 (max 0 (300 / 600))) ∧
     ((dynamicCrosshair whInit (1/60) 300 600 true).state.inAirCrosshairMultiplier =
        if true then fInterpTo whInit.inAirCrosshairMultiplier 3.0 (1/60) 20.0
        else fInterpTo whInit.inAirCrosshairMultiplier 0.0 (1/60) 5.0) ∧
     ((dynamicCrosshair whInit (1/60) 300 600 true).state.aimingCrosshairMultiplier =
        if whInit.bIsAiming then fInterpTo whInit.aimingCrosshairMultiplier (-0.5) (1/60) 12
        else fInterpTo whInit.aimingCrosshairMultiplier 0.0 (1/60) 15) ∧
     ((dynamicCrosshair whInit (1/60) 300 600 true).state.weaponFireWeaponCrosshairMultiplier =
        if whInit.bIsFiringWeapon then fInterpTo whInit.weaponFireWeaponCrosshairMultiplier 0.3 (1/60) 35
        else fInterpTo whInit.weaponFireWeaponCrosshairMultiplier 0.0 (1/60) 60) ∧
     ((dynamicCrosshair whInit (1/60) 300 600 true).crosshairMultiplier =
        0.5 + (dynamicCrosshair whInit (1/60) 300 600 true).state.acceleratingCrosshairMultiplier
            + (dynamicCrosshair whInit (1/60) 300 600 true).state.inAirCrosshairMultiplier
            + (dynamicCrosshair whInit (1/60) 300 600 true).state.aimingCrosshairMultiplier
            + (dynamicCrosshair whInit (1/60) 300 600 true).state.weaponFireWeaponCrosshairMultiplier)) :=
  ⟨by norm_num [smallNumber],
   dynamicCrosshair_spec whInit (1/60) 300 600 true (by norm_num [smallNumber])⟩

/-! ## Items (Item.h, Item.cpp) -/

/-- EItemRarity from Item.h (lines 18-28). -/
inductive EItemRarity where
  | EIR_Damaged
  | EIR_Common
  | EIR_Rare
  | EIR_Legendary
  | EIR_Mythic
  | EIR_Cold
  | EIR_MAX
deriving DecidableEq

/-- EItemState from Item.h (lines 36-44). -/
inductive EItemState where
  | EIS_InWorld
  | EIS_Equipping
  | EIS_Stored
  | EIS_Equipped
  | EIS_Falling
deriving DecidableEq

/-- ECollisionEnabled values used by Item.cpp. -/
inductive ECollisionEnabled where
  | NoCollision
  | QueryOnly
  | PhysicsOnly
  | QueryAndPhysics
deriving DecidableEq

/-- ECollisionResponse values used by Item.cpp. -/
inductive ECollisionResponse where
  | ECR_Ignore
  | ECR_Overlap
  | ECR_Block
deriving DecidableEq

/-- Per-channel collision responses of a primitive component.  Item.cpp only
addresses the Visibility and WorldStatic channels individually; the remaining
channels all receive the same value and are folded into one field. -/
structure ChannelResponses where
  visibility : ECollisionResponse
  worldStatic : ECollisionResponse
  otherChannels : ECollisionResponse
deriving DecidableEq

/-- SetCollisionResponseToAllChannels. -/
def setResponseToAllChannels (r : ECollisionResponse) : ChannelResponses :=
  { visibility := r, worldStatic := r, otherChannels := r }

/-- The collision and physics flags of one primitive component (item mesh,
collision sphere, collision box) that Item.cpp reads and writes. -/
structure PrimitiveConfig where
  simulatePhysics : Bool
  enableGravity : Bool
  visible : Bool
  collisionEnabled : ECollisionEnabled
  responses : ChannelResponses
deriving DecidableEq

/-- A concrete component configuration used as an engine-default stand-in in
counterexamples and witnesses. -/
def primStand : PrimitiveConfig :=
  { simulatePhysics := false, enableGravity := true, visible := true,
    collisionEnabled := .QueryAndPhysics,
    responses := setResponseToAllChannels .ECR_Block }

/-- The fields of AItem that Item.cpp reads and writes (Item.h lines 181-236).
ActiveStars is a TArray of Bool; OverlappedItemCount is an int8 and is
embedded as an integer kept in [-128, 127]; the ThrowItemTimer handle is an
Option-valued pending delay whose callback (StopFalling) is fixed in the
code. -/
structure ItemS where
  itemMesh : PrimitiveConfig
  collisionBox : PrimitiveConfig
  collisionSphere : PrimitiveConfig
  itemCount : ℤ
  itemRarity : EItemRarity
  activeStars : List Bool
  itemState : EItemState
  overlappedItemCount : ℤ
  bShouldTraceForItem : Bool
  throwTime : ℚ
  bIsFalling : Bool
  throwItemTimer : Option ℚ
deriving DecidableEq

/-- AItem constructor (Item.cpp lines 16-49): member initializers plus the
collision setup performed on the mesh and box subobjects; the engine-default
remainder of each subobject configuration is a parameter.  The ActiveStars
TArray is default-constructed, hence empty. -/
def itemInit (meshDefault boxDefault sphereDefault : PrimitiveConfig) : ItemS :=
  { itemMesh :=
      { meshDefault with simulatePhysics := false, collisionEnabled := .NoCollision,
                         responses := setResponseToAllChannels .ECR_Ignore },
    collisionBox :=
      { boxDefault with responses :=
          { setResponseToAllChannels .ECR_Ignore with visibility := .ECR_Block } },
    collisionSphere := sphereDefault,
    itemCount := 0,
    itemRarity := .EIR_Common,
    activeStars := [],
    itemState := .EIS_InWorld,
    overlappedItemCount := 0,
    bShouldTraceForItem := false,
    throwTime := 4.0,
    bIsFalling := false,
    throwItemTimer := none }

/-- AItem::SetItemProperties (Item.cpp lines 295-349): a switch on the target
state that reconfigures the mesh, sphere and box; the default case changes
nothing. -/
def setItemProperties (s : ItemS) : EItemState → ItemS
  | .EIS_InWorld =>
    { s with
      itemMesh :=
        { s.itemMesh with simulatePhysics := false, enableGravity := false,
                          visible := true,
                          responses := setResponseToAllChannels .ECR_Ignore,
                          collisionEnabled := .NoCollision },
      collisionSphere :=
        { s.collisionSphere with responses := setResponseToAllChannels .ECR_Overlap,
                                 collisionEnabled := .QueryOnly },
      collisionBox :=
        { s.collisionBox with
          responses := { setResponseToAllChannels .ECR_Ignore with visibility := .ECR_Block },
          collisionEnabled := .QueryAndPhysics } }
  | .EIS_Equipped =>
    { s with
      itemMesh :=
        { s.itemMesh with simulatePhysics := false, enableGravity := false,
                          visible := true,
                          responses := setResponseToAllChannels .ECR_Ignore,
                          collisionEnabled := .NoCollision },
      collisionSphere :=
        { s.collisionSphere with responses := setResponseToAllChannels .ECR_Ignore,
                                 collisionEnabled := .NoCollision },
      collisionBox :=
        { s.collisionBox with responses := setResponseToAllChannels .ECR_Ignore,
                              collisionEnabled := .NoCollision } }
  | .EIS_Falling =>
    { s with
      itemMesh :=
        { s.itemMesh with simulatePhysics := true, visible := true,
                          enableGravity := true,
                          responses := { setResponseToAllChannels .ECR_Ignore with
                                          worldStatic := .ECR_Block },
                          collisionEnabled := .QueryAndPhysics },
      collisionSphere :=
        { s.collisionSphere with responses := setResponseToAllChannels .ECR_Ignore,
                                 collisionEnabled := .NoCollision },
      collisionBox :=
        { s.collisionBox with responses := setResponseToAllChannels .ECR_Ignore,
                              collisionEnabled := .NoCollision } }
  | .EIS_Equipping => s
  | .EIS_Stored => s

/-- AItem::SetItemState (Item.cpp lines 284-288): stores the new state then
applies SetItemProperties to it. -/
def setItemState (s : ItemS) (ns : EItemState) : ItemS :=
  setItemProperties { s with itemState := ns } ns

/-- AItem::SetShouldTraceForItem (Item.h line 85). -/
def setShouldTraceForItem (s : ItemS) (b : Bool) : ItemS :=
  { s with bShouldTraceForItem := b }

/-- Reduction of an integer to the int8 value range, as performed by the
store into the int8 field OverlappedItemCount. -/
def wrap8 (n : ℤ) : ℤ := (n + 128) % 256 - 128

/-- AItem::IncreaseOverlappedItemCount (Item.cpp lines 91-103): a positive
Amount is added to the int8 counter and tracing is enabled; any other Amount
resets the counter to 0 and disables tracing. -/
def increaseOverlappedItemCount (s : ItemS) (amount : ℤ) : ItemS :=
  if 0 < amount then
    { s with overlappedItemCount := wrap8 (s.overlappedItemCount + amount),
             bShouldTraceForItem := true }
  else
    { s with overlappedItemCount := 0, bShouldTraceForItem := false }

/-- Bounds-checked TArray element write: TArray::operator[] asserts that the
index is below the array length. -/
def listSet? (l : List Bool) (i : ℕ) (b : Bool) : Option (List Bool) :=
  if i < l.length then some (l.set i b) else none

/-- AItem::SetActiveStars (Item.cpp lines 238-277): clears every existing
element, then writes true to indices 1..k where k depends on the rarity;
a none result records an out-of-bounds TArray write. -/
def setActiveStars (stars : List Bool) (rarity : EItemRarity) : Option (List Bool) :=
  let cleared := stars.map (fun _ => false)
  match rarity with
  | .EIR_Damaged => listSet? cleared 1 true
  | .EIR_Common => do
      let a ← listSet? cleared 1 true
      listSet? a 2 true
  | .EIR_Rare => do
      let a ← listSet? cleared 1 true
      let b ← listSet? a 2 true
      listSet? b 3 true
  | .EIR_Legendary => do
      let a ← listSet? cleared 1 true
      let b ← listSet? a 2 true
      let c ← listSet? b 3 true
      listSet? c 4 true
  | .EIR_Mythic => do
      let a ← listSet? cleared 1 true
      let b ← listSet? a 2 true
      let c ← listSet? b 3 true
      let d ← listSet? c 4 true
      listSet? d 5 true
  | .EIR_Cold => some cleared
  | .EIR_MAX => some cleared

/-! ## Throwing (Item.cpp lines 355-392) -/

/-- A 3-component engine vector. -/
structure Vec3 where
  x : ℚ
  y : ℚ
  z : ℚ
deriving DecidableEq

/-- Scalar multiplication of a vector. -/
def vscale (k : ℚ) (v : Vec3) : Vec3 := ⟨k * v.x, k * v.y, k * v.z⟩

/-- FVector::RotateAngleAxis: rotation of the vector by AngleDeg degrees
about the given axis.  The sine and cosine of the angle in radians are
supplied by an oracle argument, standing for FMath::SinCos; the remainder is
the exact expanded rotation formula of the engine source. -/
def rotateAngleAxis (sincos : ℚ → ℚ × ℚ) (angleDeg : ℚ) (axis v : Vec3) : Vec3 :=
  let s := (sincos angleDeg).1
  let c := (sincos angleDeg).2
  let xx := axis.x * axis.x
  let yy := axis.y * axis.y
  let zz := axis.z * axis.z
  let xy := axis.x * axis.y
  let yz := axis.y * axis.z
  let zx := axis.z * axis.x
  let xs := axis.x * s
  let ys := axis.y * s
  let zs := axis.z * s
  let omc := 1 - c
  ⟨(omc * xx + c) * v.x + (omc * xy - zs) * v.y + (omc * zx + ys) * v.z,
   (omc * xy + zs) * v.x + (omc * yy + c) * v.y + (omc * yz - xs) * v.z,
   (omc * zx - ys) * v.x + (omc * yz + xs) * v.y + (omc * zz + c) * v.z⟩

/-- FMath::FRandRange(lo, hi) = lo + (hi - lo) * FRand(), with the unit
random draw FRand() passed in as u. -/
def fRandRange (lo hi u : ℚ) : ℚ := lo + (hi - lo) * u

/-- Result of one ThrowItem call: the updated item and the impulse vector
passed to AddImpulse. -/
structure ThrowResult where
  state : ItemS
  impulse : Vec3

/-- AItem::ThrowItem (Item.cpp lines 355-380): with the mesh rotation
flattened to yaw, takes the mesh right vector, rotates it -20 degrees about
the mesh forward vector, rotates the result about the world Z axis by
FRandRange(-20, 30), scales by 1.8, applies it as an impulse, sets
bIsFalling, and starts a ThrowTime-second timer whose callback is
StopFalling.  meshForward and meshRight are the mesh axes after the
flattening; u is the unit random draw. -/
def throwItem (sincos : ℚ → ℚ × ℚ) (u : ℚ) (meshForward meshRight : Vec3)
    (s : ItemS) : ThrowResult :=
  let dir0 := rotateAngleAxis sincos (-20.0) meshForward meshRight
  let randomRotation := fRandRange (-20.0) 30.0 u
  let dir1 := rotateAngleAxis sincos randomRotation ⟨0, 0, 1⟩ dir0
  { state := { s with bIsFalling := true, throwItemTimer := some s.throwTime },
    impulse := vscale 1.8 dir1 }

/-- AItem::StopFalling (Item.cpp lines 386-392): clears bIsFalling and sets
the item state back to InWorld. -/
def stopFalling (s : ItemS) : ItemS :=
  setItemState { s with bIsFalling := false } .EIS_InWorld

/-- Item states reachable from the constructor (for any engine-default
component configurations) by the operations Item.cpp performs on an item. -/
inductive ReachableItem : ItemS → Prop where
  | init (m b c : PrimitiveConfig) : ReachableItem (itemInit m b c)
  | stepState (s : ItemS) (ns : EItemState) :
      ReachableItem s → ReachableItem (setItemState s ns)
  | stepProps (s : ItemS) (st : EItemState) :
      ReachableItem s → ReachableItem (setItemProperties s st)
  | stepOverlap (s : ItemS) (amount : ℤ) :
      ReachableItem s → ReachableItem (increaseOverlappedItemCount s amount)
  | stepTrace (s : ItemS) (b : Bool) :
      ReachableItem s → ReachableItem (setShouldTraceForItem s b)
  | stepStars (s : ItemS) (l : List Bool) :
      ReachableItem s → setActiveStars s.activeStars s.itemRarity = some l →
      ReachableItem { s with activeStars := l }
  | stepThrow (sincos : ℚ → ℚ × ℚ) (u : ℚ) (f r : Vec3) (s : ItemS) :
      ReachableItem s → ReachableItem (throwItem sincos u f r s).state
  | stepStop (s : ItemS) :
      ReachableItem s → ReachableItem (stopFalling s)

/-- ThrowTime is set to 4.0 in the constructor and never written again, so it
is 4 in every reachable item state. -/
theorem reachableItem_throwTime (s : ItemS) (h : ReachableItem s) :
    s.throwTime = 4 := by
  induction h with
  | init m b c => norm_num [itemInit]
  | stepState t ns _ ih => cases ns <;> simpa [setItemState, setItemProperties] using ih
  | stepProps t st _ ih => cases st <;> simpa [setItemProperties] using ih
  | stepOverlap t amount _ ih =>
      by_cases ha : 0 < amount <;> simpa [increaseOverlappedItemCount, ha] using ih
  | stepTrace t b _ ih => simpa [setShouldTraceForItem] using ih
  | stepStars t l _ _ ih => simpa using ih
  | stepThrow sincos u f r t _ ih => simpa [throwItem] using ih
  | stepStop t _ ih => simpa [stopFalling, setItemState, setItemProperties] using ih

/-- Claim C5: SetItemState stores the new state and reconfigures the
components according to the target state: InWorld disables mesh physics,
gravity and collision, gives the sphere overlap responses with QueryOnly, and
gives the box a Block response on the visibility channel with
QueryAndPhysics; Equipped disables mesh physics and gravity and disables
collision on mesh, sphere and box; Falling enables mesh physics and gravity
with QueryAndPhysics collision blocking WorldStatic, and disables sphere and
box collision. -/
theorem setItemState_reconfigures (s : ItemS) (ns : EItemState) :
    (setItemState s ns).itemState = ns ∧
    ((setItemState s .EIS_InWorld).itemMesh.simulatePhysics = false ∧
     (setItemState s .EIS_InWorld).itemMesh.enableGravity = false ∧
     (setItemState s .EIS_InWorld).itemMesh.collisionEnabled = .NoCollision ∧
     (setItemState s .EIS_InWorld).collisionSphere.responses =
        setResponseToAllChannels .ECR_Overlap ∧
     (setItemState s .EIS_InWorld).collisionSphere.collisionEnabled = .QueryOnly ∧
     (setItemState s .EIS_InWorld).collisionBox.responses.visibility = .ECR_Block ∧
     (setItemState s .EIS_InWorld).collisionBox.collisionEnabled = .QueryAndPhysics) ∧
    ((setItemState s .EIS_Equipped).itemMesh.simulatePhysics = false ∧
     (setItemState s .EIS_Equipped).itemMesh.enableGravity = false ∧
     (setItemState s .EIS_Equipped).itemMesh.collisionEnabled = .NoCollision ∧
     (setItemState s .EIS_Equipped).collisionSphere.collisionEnabled = .NoCollision ∧
     (setItemState s .EIS_Equipped).collisionBox.collisionEnabled = .NoCollision) ∧
    ((setItemState s .EIS_Falling).itemMesh.simulatePhysics = true ∧
     (setItemState s .EIS_Falling).itemMesh.enableGravity = true ∧
     (setItemState s .EIS_Falling).itemMesh.collisionEnabled = .QueryAndPhysics ∧
     (setItemState s .EIS_Falling).itemMesh.responses.worldStatic = .ECR_Block ∧
     (setItemState s .EIS_Falling).collisionSphere.collisionEnabled = .NoCollision ∧
     (setItemState s .EIS_Falling).collisionBox.collisionEnabled = .NoCollision) := by
  refine ⟨?_, ⟨rfl, rfl, rfl, rfl, rfl, rfl, rfl⟩,
          ⟨rfl, rfl, rfl, rfl, rfl⟩, ⟨rfl, rfl, rfl, rfl, rfl, rfl⟩⟩
  cases ns <;> rfl

/-- Claim C6 counterexample: from the initial item state, the single call
IncreaseOverlappedItemCount(128) overflows the int8 counter to -128, leaving
OverlappedItemCount negative while bShouldTraceForItem is true — refuting
both the non-negativity and the flag-iff-positive parts of the claim. -/
theorem increaseOverlappedItemCount_overflow_negative :
    (increaseOverlappedItemCount (itemInit primStand primStand primStand)
        128).overlappedItemCount < 0 ∧
    (increaseOverlappedItemCount (itemInit primStand primStand primStand)
        128).bShouldTraceForItem = true := by
  constructor
  · show wrap8 (0 + 128) < 0
    unfold wrap8
    norm_num
  · rfl

/-- AItem::IncreaseOverlappedItemCount applied to a whole call sequence. -/
def runOverlapCalls (s : ItemS) : List ℤ → ItemS
  | [] => s
  | a :: rest => runOverlapCalls (increaseOverlappedItemCount s a) rest

/-- A call sequence never pushes the int8 counter past its maximum: every
positive Amount, added to the counter value at the time of the call, stays at
most 127. -/
def overlapCallsNoOverflow (s : ItemS) : List ℤ → Prop
  | [] => True
  | a :: rest =>
      (0 < a → s.overlappedItemCount + a ≤ 127) ∧
      overlapCallsNoOverflow (increaseOverlappedItemCount s a) rest

theorem overlapCalls_aux (l : List ℤ) :
    ∀ s : ItemS,
      0 ≤ s.overlappedItemCount → s.overlappedItemCount ≤ 127 →
      (s.bShouldTraceForItem = true ↔ 0 < s.overlappedItemCount) →
      overlapCallsNoOverflow s l →
      0 ≤ (runOverlapCalls s l).overlappedItemCount ∧
      (runOverlapCalls s l).overlappedItemCount ≤ 127 ∧
      ((runOverlapCalls s l).bShouldTraceForItem = true ↔
        0 < (runOverlapCalls s l).overlappedItemCount) := by
  induction l with
  | nil => exact fun s h1 h2 h3 _ => ⟨h1, h2, h3⟩
  | cons a rest ih =>
    intro s h1 h2 h3 hno
    obtain ⟨hhead, htail⟩ := hno
    show 0 ≤ (runOverlapCalls (increaseOverlappedItemCount s a) rest).overlappedItemCount ∧ _
    by_cases ha : 0 < a
    · have hle : s.overlappedItemCount + a ≤ 127 := hhead ha
      have hw : wrap8 (s.overlappedItemCount + a) = s.overlappedItemCount + a := by
        unfold wrap8; omega
      have hc : (increaseOverlappedItemCount s a).overlappedItemCount =
          s.overlappedItemCount + a := by
        simp [increaseOverlappedItemCount, ha, hw]
      have hf : (increaseOverlappedItemCount s a).bShouldTraceForItem = true := by
        simp [increaseOverlappedItemCount, ha]
      exact ih _ (by rw [hc]; omega) (by rw [hc]; omega)
        (by rw [hf, hc]; exact iff_of_true rfl (by omega)) htail
    · have hc : (increaseOverlappedItemCount s a).overlappedItemCount = 0 := by
        simp [increaseOverlappedItemCount, ha]
      have hf : (increaseOverlappedItemCount s a).bShouldTraceForItem = false := by
        simp [increaseOverlappedItemCount, ha]
      exact ih _ (by rw [hc]) (by rw [hc]; omega)
        (by rw [hf, hc]; exact iff_of_false (by simp) (by omega)) htail

/-- Claim C6 (amended): the overlapped-item count drives the should-trace
flag with no debouncing, and — provided no call overflows the int8 counter,
i.e. every positive Amount added to the current count stays at most 127 —
after any sequence of IncreaseOverlappedItemCount calls from the initial
state the count is never negative and bShouldTraceForItem is true exactly
when the count is positive. -/
theorem overlappedItemCount_invariant (m b c : PrimitiveConfig) (l : List ℤ)
    (h : overlapCallsNoOverflow (itemInit m b c) l) :
    0 ≤ (runOverlapCalls (itemInit m b c) l).overlappedItemCount ∧
    ((runOverlapCalls (itemInit m b c) l).bShouldTraceForItem = true ↔
      0 < (runOverlapCalls (itemInit m b c) l).overlappedItemCount) := by
  have h0 := overlapCalls_aux l (itemInit m b c) (by norm_num [itemInit])
    (by norm_num [itemInit]) (by simp [itemInit]) h
  exact ⟨h0.1, h0.2.2⟩

/-- Witness for the amended claim C6 on the call sequence [1, 2, -1]. -/
theorem overlappedItemCount_invariant_witness :
    overlapCallsNoOverflow (itemInit primStand primStand primStand) [1, 2, -1] ∧
    (0 ≤ (runOverlapCalls (itemInit primStand primStand primStand)
            [1, 2, -1]).overlappedItemCount ∧
     ((runOverlapCalls (itemInit primStand primStand primStand)
            [1, 2, -1]).bShouldTraceForItem = true ↔
       0 < (runOverlapCalls (itemInit primStand primStand primStand)
            [1, 2, -1]).overlappedItemCount)) := by
  have hno : overlapCallsNoOverflow (itemInit primStand primStand primStand) [1, 2, -1] := by
    refine ⟨fun _ => ?_, fun _ => ?_, fun hx => absurd hx (by norm_num), trivial⟩
    · norm_num [itemInit]
    · norm_num [itemInit, increaseOverlappedItemCount, wrap8]
  exact ⟨hno, overlappedItemCount_invariant primStand primStand primStand [1, 2, -1] hno⟩

/-- Claim C9: the constructor leaves ActiveStars empty (the TArray is
default-constructed and BeginPlay sizes nothing), and ItemRarity defaults to
Common, so the SetActiveStars call made from BeginPlay writes index 1 of a
length-0 array: an out-of-bounds TArray write, recorded as a none result. -/
theorem setActiveStars_ctor_outOfBounds :
    (itemInit primStand primStand primStand).activeStars = [] ∧
    (itemInit primStand primStand primStand).itemRarity = .EIR_Common ∧
    setActiveStars (itemInit primStand primStand primStand).activeStars
      (itemInit primStand primStand primStand).itemRarity = none :=
  ⟨rfl, rfl, rfl⟩

/-- Claim C4: ThrowItem draws a random yaw in [-20, 30] degrees, applies an
impulse equal to the mesh right vector rotated -20 degrees about the mesh
forward vector, then rotated about the world Z axis by that yaw, scaled by
1.8; it sets bIsFalling and schedules StopFalling after ThrowTime = 4
seconds, and StopFalling clears bIsFalling and returns the item state to
InWorld. -/
theorem throwItem_spec (sincos : ℚ → ℚ × ℚ) (u : ℚ) (fwd rightv : Vec3)
    (s : ItemS) (hs : ReachableItem s) (hu0 : 0 ≤ u) (hu1 : u ≤ 1) :
    (-20 ≤ fRandRange (-20.0) 30.0 u ∧ fRandRange (-20.0) 30.0 u ≤ 30) ∧
    (throwItem sincos u fwd rightv s).impulse =
      vscale 1.8 (rotateAngleAxis sincos (fRandRange (-20.0) 30.0 u) ⟨0, 0, 1⟩
        (rotateAngleAxis sincos (-20.0) fwd rightv)) ∧
    (throwItem sincos u fwd rightv s).state.bIsFalling = true ∧
    (throwItem sincos u fwd rightv s).state.throwItemTimer = some 4 ∧
    (stopFalling (throwItem sincos u fwd rightv s).state).bIsFalling = false ∧
    (stopFalling (throwItem sincos u fwd rightv s).state).itemState =
      .EIS_InWorld := by
  have ht : s.throwTime = 4 := reachableItem_throwTime s hs
  refine ⟨⟨?_, ?_⟩, rfl, rfl, ?_, rfl, rfl⟩
  · unfold fRandRange; nlinarith
  · unfold fRandRange; nlinarith
  · show some s.throwTime = some 4
    rw [ht]

/-- Witness for claim C4 at a concrete sine-cosine oracle, unit draw 1/2,
axis-aligned mesh vectors, and the constructor item state. -/
theorem throwItem_spec_witness :
    (-20 ≤ fRandRange (-20.0) 30.0 (1/2) ∧ fRandRange (-20.0) 30.0 (1/2) ≤ 30) ∧
    (throwItem (fun _ => (0, 1)) (1/2) ⟨1, 0, 0⟩ ⟨0, 1, 0⟩
        (itemInit primStand primStand primStand)).impulse =
      vscale 1.8 (rotateAngleAxis (fun _ => (0, 1)) (fRandRange (-20.0) 30.0 (1/2)) ⟨0, 0, 1⟩
        (rotateAngleAxis (fun _ => (0, 1)) (-20.0) ⟨1, 0, 0⟩ ⟨0, 1, 0⟩)) ∧
    (throwItem (fun _ => (0, 1)) (1/2) ⟨1, 0, 0⟩ ⟨0, 1, 0⟩
        (itemInit primStand primStand primStand)).state.bIsFalling = true ∧
    (throwItem (fun _ => (0, 1)) (1/2) ⟨1, 0, 0⟩ ⟨0, 1, 0⟩
        (itemInit primStand primStand primStand)).state.throwItemTimer = some 4 ∧
    (stopFalling (throwItem (fun _ => (0, 1)) (1/2) ⟨1, 0, 0⟩ ⟨0, 1, 0⟩
        (itemInit primStand primStand primStand)).state).bIsFalling = false ∧
    (stopFalling (throwItem (fun _ => (0, 1)) (1/2) ⟨1, 0, 0⟩ ⟨0, 1, 0⟩
        (itemInit primStand primStand primStand)).state).itemState =
      .EIS_InWorld :=
  throwItem_spec (fun _ => (0, 1)) (1/2) ⟨1, 0, 0⟩ ⟨0, 1, 0⟩
    (itemInit primStand primStand primStand)
    (ReachableItem.init primStand primStand primStand)
    (by norm_num) (by norm_num)

/-! ## Weapons and equipping (Weapon.h, WeaponHandlingComponent.cpp lines 322-348) -/

/-- EWeaponType from Weapon.h (lines 9-15). -/
inductive EWeaponType where
  | EWT_Pistol
  | EWT_Rifle
  | EWT_Shotgun
deriving DecidableEq

/-- AWeapon: an AItem together with its weapon-type field (Weapon.h). -/
structure WeaponS where
  item : ItemS
  weaponType : EWeaponType
deriving DecidableEq

/-- AItem::SetItemState lifted to a weapon. -/
def weaponSetItemState (w : WeaponS) (ns : EItemState) : WeaponS :=
  { w with item := setItemState w.item ns }

/-- Result of one UWeaponHandlingComponent::EquipWeapon call: the armed
flags, the values behind the EquippedWeapon reference and the WeaponToEquip
pointer (which alias one object once attachment happens), and whether
AttachActor was invoked. -/
structure EquipResult where
  armed : ArmedFlags
  equippedWeapon : Option WeaponS
  weaponToEquip : Option WeaponS
  attached : Bool
deriving DecidableEq

/-- UWeaponHandlingComponent::EquipWeapon
(WeaponHandlingComponent.cpp lines 322-348).  Attachment happens only when
the socket is non-null, the weapon to equip is non-null, and no weapon is
equipped; then the weapon is attached, becomes the equipped weapon, is set to
the Equipped item state, and the armed state is set from its weapon type
(the inner null re-check always passes because EquippedWeapon was just
assigned).  In every other case only SetPlayerArmedState(EPAS_Unarmed) runs. -/
def equipWeapon (weaponToEquip equippedWeapon : Option WeaponS)
    (socketPresent : Bool) (armed : ArmedFlags) : EquipResult :=
  match socketPresent, weaponToEquip, equippedWeapon with
  | true, some w, none =>
    let equipped := weaponSetItemState w .EIS_Equipped
    let newArmed :=
      match w.weaponType with
      | .EWT_Pistol => setPlayerArmedState armed .EPAS_Pistol
      | .EWT_Rifle => setPlayerArmedState armed .EPAS_Rifle
      | .EWT_Shotgun => setPlayerArmedState armed .EPAS_Shotgun
    { armed := newArmed, equippedWeapon := some equipped,
      weaponToEquip := some equipped, attached := true }
  | _, _, _ =>
    { armed := setPlayerArmedState armed .EPAS_Unarmed,
      equippedWeapon := equippedWeapon, weaponToEquip := weaponToEquip,
      attached := false }

/-- Claim C10: whenever the socket is null, the weapon to equip is null, or a
weapon is already equipped, EquipWeapon attaches nothing, leaves the
EquippedWeapon reference and both weapon objects (hence their item states)
unchanged, and sets the armed state to Unarmed — all four armed-state
booleans false — even when a weapon remains equipped. -/
theorem equipWeapon_guard_failure (wte cw : Option WeaponS) (sock : Bool)
    (armed : ArmedFlags) (h : sock = false ∨ wte = none ∨ cw ≠ none) :
    (equipWeapon wte cw sock armed).attached = false ∧
    (equipWeapon wte cw sock armed).equippedWeapon = cw ∧
    (equipWeapon wte cw sock armed).weaponToEquip = wte ∧
    (equipWeapon wte cw sock armed).armed =
      { bIsArmed := false, bIsArmedPistol := false,
        bIsArmedRifle := false, bIsArmedShotGun := false } := by
  match sock, wte, cw with
  | true, some w, none =>
    rcases h with h | h | h
    · exact absurd h (by simp)
    · exact absurd h (by simp)
    · exact absurd rfl h
  | false, _, _ => exact ⟨rfl, rfl, rfl, rfl⟩
  | true, none, _ => exact ⟨rfl, rfl, rfl, rfl⟩
  | true, some _, some _ => exact ⟨rfl, rfl, rfl, rfl⟩

/-- Witness for claim C10: a pistol is already equipped and a rifle is
offered with the socket present; nothing changes except the armed flags,
which are forced to the all-false unarmed assignment. -/
theorem equipWeapon_guard_failure_witness :
    (equipWeapon (some ⟨itemInit primStand primStand primStand, .EWT_Rifle⟩)
        (some ⟨itemInit primStand primStand primStand, .EWT_Pistol⟩) true
        (setPlayerArmedState armedFlagsInit .EPAS_Pistol)).attached = false ∧
    (equipWeapon (some ⟨itemInit primStand primStand primStand, .EWT_Rifle⟩)
        (some ⟨itemInit primStand primStand primStand, .EWT_Pistol⟩) true
        (setPlayerArmedState armedFlagsInit .EPAS_Pistol)).equippedWeapon =
      some ⟨itemInit primStand primStand primStand, .EWT_Pistol⟩ ∧
    (equipWeapon (some ⟨itemInit primStand primStand primStand, .EWT_Rifle⟩)
        (some ⟨itemInit primStand primStand primStand, .EWT_Pistol⟩) true
        (setPlayerArmedState armedFlagsInit .EPAS_Pistol)).weaponToEquip =
      some ⟨itemInit primStand primStand primStand, .EWT_Rifle⟩ ∧
    (equipWeapon (some ⟨itemInit primStand primStand primStand, .EWT_Rifle⟩)
        (some ⟨itemInit primStand primStand primStand, .EWT_Pistol⟩) true
        (setPlayerArmedState armedFlagsInit .EPAS_Pistol)).armed =
      { bIsArmed := false, bIsArmedPistol := false,
        bIsArmedRifle := false, bIsArmedShotGun := false } :=
  equipWeapon_guard_failure
    (some ⟨itemInit primStand primStand primStand, .EWT_Rifle⟩)
    (some ⟨itemInit primStand primStand primStand, .EWT_Pistol⟩) true
    (setPlayerArmedState armedFlagsInit .EPAS_Pistol)
    (Or.inr (Or.inr (by simp)))

/-! ## The firing entry point (BelicaCharacter.cpp lines 210-226) -/

/-- ABelicaCharacter::StartFIreWeapon (BelicaCharacter.cpp lines 210-226).
When GetShouldFireWeapon and GetIsArmed both hold, the code fetches the
barrel socket by name and immediately calls GetSocketTransform on it with no
null check, then plays the fire montage and hands the socket transform to the
weapon-handling component (SetFireTimer, declared in the header; the firing
action is abstracted as the fireAction argument).  A none result models the
null-pointer dereference that occurs when the socket is missing. -/
def startFireWeapon (fireAction : WHState → WHState × List FireEffect)
    (wh : WHState) (barrelSocket : Option Vec3) :
    Option (WHState × List FireEffect) :=
  if wh.bShouldFireWeapon && wh.armed.bIsArmed then
    match barrelSocket with
    | none => none
    | some _ => some (fireAction wh)
  else some (wh, [])

/-- A component state that is armed with a pistol and ready to fire. -/
def whReady : WHState :=
  { whInit with armed := setPlayerArmedState armedFlagsInit .EPAS_Pistol }

/-- Claim C8 evaluation at the failing input: with bShouldFireWeapon and
bIsArmed both true and the barrel socket missing, StartFIreWeapon
dereferences the null socket pointer (result none) instead of skipping the
firing — the claimed silent skip would be the state-preserving some result. -/
theorem startFireWeapon_null_socket_dereference :
    whReady.bShouldFireWeapon = true ∧
    whReady.armed.bIsArmed = true ∧
    startFireWeapon (fun s => (s, [])) whReady none = none ∧
    startFireWeapon (fun s => (s, [])) whReady none ≠ some (whReady, []) :=
  ⟨rfl, rfl, rfl, by
    rw [show startFireWeapon (fun s => (s, [])) whReady none = none from rfl]
    exact fun hc => Option.noConfusion hc⟩

end SandboxShooter
